import Mathlib

/-!
# LoRaWAN Class B example application (`main.cpp`)

A shallow embedding of the event-driven control logic of `main.cpp`:
the five global flags, the three 16-bit counters of `app_data`, the send
timers armed on `ev_queue`, and the calls issued to the `lorawan` stack
object.  The stack is an external collaborator: every value it returns
during one invocation of a handler is supplied by a `Stack` record, and
every call made to it is appended to the `calls` trace of the state.
`printf` output is not modelled.
-/

set_option linter.unusedVariables false

namespace LoRaClassB

/-! ## Data model -/

/-- The type `lorawan_status_t` of the stack header, as its integer value. -/
abbrev lorawan_status_t := Int

/-- The enumerator `LORAWAN_STATUS_OK` of the stack header (value 0); every
other status is an error code. -/
def LORAWAN_STATUS_OK : lorawan_status_t := 0

/-- The macro `MBED_CONF_LORA_APP_PORT` (main.cpp line 36). -/
def MBED_CONF_LORA_APP_PORT : Nat := 15

/-- The macro `MSG_UNCONFIRMED_FLAG` of the stack header (value 0x01). -/
def MSG_UNCONFIRMED_FLAG : Nat := 0x01

/-- The enumeration `device_class_t` of the stack header. -/
inductive device_class_t where
  | CLASS_A
  | CLASS_B
  | CLASS_C
deriving DecidableEq, Repr

/-- The events of `lorawan_event_t` that `lora_event_handler` names in its
`switch`, and `UNKNOWN code` for every other value of the type (the values
that reach the `default` arm). -/
inductive lorawan_event_t where
  | CONNECTED
  | DISCONNECTED
  | TX_DONE
  | TX_TIMEOUT
  | TX_ERROR
  | TX_CRYPTO_ERROR
  | TX_SCHEDULING_ERROR
  | RX_DONE
  | RX_TIMEOUT
  | RX_ERROR
  | JOIN_FAILURE
  | DEVICE_TIME_SYNCHED
  | PING_SLOT_INFO_SYNCHED
  | BEACON_NOT_FOUND
  | BEACON_FOUND
  | BEACON_LOCK
  | BEACON_MISS
  | SWITCH_CLASS_B_TO_A
  | UNKNOWN (code : Nat)
deriving DecidableEq, Repr

/-- The struct `app_data_frame_t` (main.cpp lines 22-26): three `uint16_t`
counters, held as naturals and reduced modulo 2^16 at every increment. -/
structure app_data_frame_t where
  rx : Nat
  beacon_lock : Nat
  beacon_miss : Nat
deriving DecidableEq, Repr

/-- A call made on the `lorawan` object, with the arguments the application
passes. -/
inductive StackCall where
  | send (port : Nat) (data : List Nat) (length : Nat) (flags : Nat)
  | receive (length : Nat)
  | get_backoff_metadata
  | enable_beacon_acquisition
  | add_device_time_request
  | add_ping_slot_info_request (periodicity : Nat)
  | set_device_class (device_class : device_class_t)
  | get_last_rx_beacon
deriving DecidableEq, Repr

/-- The globals of main.cpp (lines 10-14 and 28) together with the two
observable effects on collaborators: `timers` holds the delay of every
`ev_queue.call_in(delay, &send_message)` that has been armed and has not
fired yet, `calls` the calls made on `lorawan` so far (oldest first), and
`dispatch_broken` whether `ev_queue.break_dispatch()` has been called. -/
structure State where
  send_queued : Bool
  class_b_on : Bool
  ping_slot_synched : Bool
  device_time_synched : Bool
  beacon_found : Bool
  app_data : app_data_frame_t
  timers : List Int
  calls : List StackCall
  dispatch_broken : Bool
deriving DecidableEq, Repr

/-- The state at program start: the initialisers of lines 10-14, the
`memset` of `app_data` in `main`, no timer armed, no call made. -/
def State.initial : State :=
  { send_queued := false
    class_b_on := false
    ping_slot_synched := false
    device_time_synched := false
    beacon_found := false
    app_data := { rx := 0, beacon_lock := 0, beacon_miss := 0 }
    timers := []
    calls := []
    dispatch_broken := false }

/-- What the collaborators answer during one invocation of a handler: the
value returned by each `lorawan` method (every handler calls each method at
most once), the value `get_backoff_metadata` writes through its reference
argument, the indeterminate content of the uninitialised local
`dummy_value`, and the configuration macro `PING_SLOT_PERIODICITY`. -/
structure Stack where
  send : Int
  receive : Int
  get_backoff_metadata : Int
  enable_beacon_acquisition : lorawan_status_t
  add_device_time_request : lorawan_status_t
  add_ping_slot_info_request : lorawan_status_t
  set_device_class : lorawan_status_t
  get_last_rx_beacon : lorawan_status_t
  dummy_value : Nat
  PING_SLOT_PERIODICITY : Nat
deriving DecidableEq, Repr

/-- How a handler invocation ends: it returns with a new state, it is
stopped by a failed `MBED_ASSERT`, or it never returns. -/
inductive Outcome where
  | returned (s : State)
  | assertion_failure
  | diverges
deriving DecidableEq, Repr

/-! ## Operations -/

/-- Conversion of a C++ `bool` to `int` in an arithmetic comparison. -/
def bool_to_int (b : Bool) : Int := if b then 1 else 0

/-- The body of the macro `APP_DUTY_CYCLE` (line 16) read as an expression
of its own: `(device_time_synched && ping_slot_synched) ? 60000 : 10000`. -/
def APP_DUTY_CYCLE (s : State) : Int :=
  if s.device_time_synched && s.ping_slot_synched then 60000 else 10000

/-- The function `queue_next_send_message` (lines 83-99).  The macro of line 16 has
no outer parentheses, so the condition of line 92,
`backoff < (device_time_synched && ping_slot_synched) ? 60000 : 10000`,
is parsed as `(backoff < (device_time_synched && ping_slot_synched)) ? 60000 : 10000`
and is tested against zero; the assignment of line 93 is
`backoff = ((device_time_synched && ping_slot_synched) ? 60000 : 10000)`. -/
def queue_next_send_message (env : Stack) (s : State) : State :=
  if s.send_queued then s
  else
    let backoff : Int := env.get_backoff_metadata
    let condition : Int :=
      if backoff < bool_to_int (s.device_time_synched && s.ping_slot_synched)
      then 60000 else 10000
    let backoff : Int := if condition ≠ 0 then APP_DUTY_CYCLE s else backoff
    { s with
      send_queued := true
      timers := s.timers ++ [backoff]
      calls := s.calls ++ [StackCall.get_backoff_metadata] }

/-- The six bytes written to `tx_buffer` by lines 60-65. -/
def tx_buffer (d : app_data_frame_t) : List Nat :=
  [ (d.beacon_lock >>> 8) &&& 0xff
  , d.beacon_lock &&& 0xff
  , (d.beacon_miss >>> 8) &&& 0xff
  , d.beacon_miss &&& 0xff
  , (d.rx >>> 8) &&& 0xff
  , d.rx &&& 0xff ]

/-- The function `send_message` (lines 55-81); `packet_len` is `sizeof(tx_buffer)`,
which is 6. -/
def send_message (env : Stack) (s : State) : State :=
  let s := { s with send_queued := false }
  let packet_len : Nat := 6
  let s := { s with
    calls := s.calls ++
      [StackCall.send MBED_CONF_LORA_APP_PORT (tx_buffer s.app_data) packet_len
        MSG_UNCONFIRMED_FLAG] }
  let retcode : Int := env.send
  if retcode < 0 then queue_next_send_message env s
  else s

/-- The printing loop of `receive_message` (lines 166-168):
`for (uint8_t i = 0; i < retcode; i++)`.  The counter is 8 bits wide and
wraps, and the body changes nothing else, so the loop either exits within
256 iterations or revisits `i = 0` and runs forever; the result is `true`
when the loop exits within `fuel` tests of its condition. -/
def print_loop : Nat → Nat → Int → Bool
  | 0, _, _ => false
  | fuel + 1, i, retcode =>
    if (i : Int) < retcode then print_loop fuel ((i + 1) % 256) retcode else true

/-- The function `receive_message` (lines 149-170); `sizeof(rx_buffer)` is 255. -/
def receive_message (env : Stack) (s : State) : Outcome :=
  let s := { s with calls := s.calls ++ [StackCall.receive 255] }
  let retcode : Int := env.receive
  if retcode < 0 then Outcome.returned s
  else
    let s := { s with app_data := { s.app_data with rx := (s.app_data.rx + 1) % 65536 } }
    if print_loop 257 0 retcode then Outcome.returned s else Outcome.diverges

/-- The function `enable_beacon_acquisition` (lines 172-190): the returned status and
the state after the call.  The local `status` is assigned twice (lines 177
and 184) and returned at line 189. -/
def enable_beacon_acquisition (env : Stack) (s : State) : lorawan_status_t × State :=
  let s := { s with beacon_found := false }
  let _status : lorawan_status_t := env.enable_beacon_acquisition
  let s := { s with calls := s.calls ++ [StackCall.enable_beacon_acquisition] }
  let s := { s with device_time_synched := false }
  let status : lorawan_status_t := env.add_device_time_request
  let s := { s with calls := s.calls ++ [StackCall.add_device_time_request] }
  (status, s)

/-- The function `switch_to_class_b` (lines 192-208); the value returned by the
`send` of line 202 is discarded. -/
def switch_to_class_b (env : Stack) (s : State) : State :=
  if !s.class_b_on && s.beacon_found && s.ping_slot_synched then
    let status : lorawan_status_t := env.set_device_class
    let s := { s with
      calls := s.calls ++ [StackCall.set_device_class device_class_t.CLASS_B] }
    if status = LORAWAN_STATUS_OK then
      let s := { s with class_b_on := true }
      { s with
        calls := s.calls ++
          [StackCall.send MBED_CONF_LORA_APP_PORT [env.dummy_value % 256] 1
            MSG_UNCONFIRMED_FLAG] }
    else s
  else s

/-- The function `print_received_beacon` (lines 294-310): one call of
`get_last_rx_beacon`, then printing over the fixed-size `gw_specific`. -/
def print_received_beacon (_env : Stack) (s : State) : State :=
  { s with calls := s.calls ++ [StackCall.get_last_rx_beacon] }

/-- The macro `MBED_ASSERT(expr)` of the platform header: execution goes on
when `expr` converts to `true` and is stopped otherwise. -/
def MBED_ASSERT (expr : Bool) (s : State) : Outcome :=
  if expr then Outcome.returned s else Outcome.assertion_failure

/-- Conversion to `bool` of a string literal used as an expression: the
literal decays to the address of its first character, which is never the
null pointer, whatever its text. -/
def string_literal_to_bool (_literal : String) : Bool := true

/-- The function `lora_event_handler` (lines 211-292). -/
def lora_event_handler (env : Stack) (event : lorawan_event_t) (s : State) : Outcome :=
  match event with
  | .CONNECTED =>
    let s := { s with
      calls := s.calls ++ [StackCall.add_ping_slot_info_request env.PING_SLOT_PERIODICITY] }
    let s := (enable_beacon_acquisition env s).2
    Outcome.returned (send_message env s)
  | .DISCONNECTED =>
    Outcome.returned { s with dispatch_broken := true }
  | .TX_DONE =>
    Outcome.returned (queue_next_send_message env s)
  | .TX_TIMEOUT | .TX_ERROR | .TX_CRYPTO_ERROR | .TX_SCHEDULING_ERROR =>
    Outcome.returned (queue_next_send_message env s)
  | .RX_DONE =>
    receive_message env s
  | .RX_TIMEOUT | .RX_ERROR =>
    Outcome.returned s
  | .JOIN_FAILURE =>
    Outcome.returned s
  | .DEVICE_TIME_SYNCHED =>
    Outcome.returned { s with device_time_synched := true }
  | .PING_SLOT_INFO_SYNCHED =>
    let s := { s with ping_slot_synched := true }
    Outcome.returned (switch_to_class_b env s)
  | .BEACON_NOT_FOUND =>
    let s := { s with
      app_data := { s.app_data with beacon_miss := (s.app_data.beacon_miss + 1) % 65536 } }
    Outcome.returned (enable_beacon_acquisition env s).2
  | .BEACON_FOUND =>
    let s := { s with beacon_found := true }
    let s := { s with
      app_data := { s.app_data with beacon_lock := (s.app_data.beacon_lock + 1) % 65536 } }
    let s := print_received_beacon env s
    Outcome.returned (switch_to_class_b env s)
  | .BEACON_LOCK =>
    let s := { s with
      app_data := { s.app_data with beacon_lock := (s.app_data.beacon_lock + 1) % 65536 } }
    Outcome.returned (print_received_beacon env s)
  | .BEACON_MISS =>
    let s := { s with
      app_data := { s.app_data with beacon_miss := (s.app_data.beacon_miss + 1) % 65536 } }
    Outcome.returned s
  | .SWITCH_CLASS_B_TO_A =>
    let s := { s with class_b_on := false }
    Outcome.returned (enable_beacon_acquisition env s).2
  | .UNKNOWN _ =>
    MBED_ASSERT (string_literal_to_bool ("Unknown Event")) s

/-! ## The event loop -/

/-- One step of the dispatch loop: the stack delivers an event to
`lora_event_handler`, or the armed send timer at position `i` of `timers`
fires. -/
inductive Step where
  | event (e : lorawan_event_t)
  | timer (i : Nat)
deriving DecidableEq, Repr

/-- The firing of the armed timer at position `i`: the timer is consumed
and its callback `send_message` runs.  No timer at that position, no
step. -/
def fire_timer (env : Stack) (i : Nat) (s : State) : Option State :=
  if i < s.timers.length then
    some (send_message env { s with timers := s.timers.eraseIdx i })
  else none

/-- The state a handler invocation returns with, if it returns. -/
def Outcome.state? : Outcome → Option State
  | Outcome.returned s => some s
  | Outcome.assertion_failure => none
  | Outcome.diverges => none

/-- The state after one step, when the step is possible and its handler
returns. -/
def step (env : Stack) (a : Step) (s : State) : Option State :=
  match a with
  | .event e => (lora_event_handler env e s).state?
  | .timer i => fire_timer env i s

/-- The state after a sequence of steps, each with the answers the stack
gives during it. -/
def run : List (Stack × Step) → State → Option State
  | [], s => some s
  | (env, a) :: rest, s => (step env a s).bind (run rest)

/-- The states reachable from program start. -/
def Reachable (s : State) : Prop :=
  ∃ l : List (Stack × Step), run l State.initial = some s

/-- A stack whose every request succeeds: `send` accepts the six bytes,
`receive` has nothing, no backoff is reported. -/
def Stack.accepting : Stack :=
  { send := 6
    receive := 0
    get_backoff_metadata := 0
    enable_beacon_acquisition := LORAWAN_STATUS_OK
    add_device_time_request := LORAWAN_STATUS_OK
    add_ping_slot_info_request := LORAWAN_STATUS_OK
    set_device_class := LORAWAN_STATUS_OK
    get_last_rx_beacon := LORAWAN_STATUS_OK
    dummy_value := 0
    PING_SLOT_PERIODICITY := 0 }

/-- Successive calls of `queue_next_send_message`, one per element of
`envs`, with nothing in between. -/
def queue_next_send_message_times (envs : List Stack) (s : State) : State :=
  envs.foldl (fun s env => queue_next_send_message env s) s

/-- The delay the specification prescribes for the next send: the larger of
the reported backoff and the duty-cycle floor, the floor being 60000 when
`device_time_synched` and `ping_slot_synched` are both true and 10000
otherwise. -/
def spec_delay (s : State) (backoff : Int) : Int :=
  max (if s.device_time_synched = true ∧ s.ping_slot_synched = true then 60000 else 10000)
    backoff

/-- Decoding of a telemetry frame as the specification lays it out: six
bytes, three big-endian 16-bit fields, in the order beacon-lock count,
beacon-miss count, receive count. -/
def decode_frame (bytes : List Nat) : Option (Nat × Nat × Nat) :=
  match bytes with
  | [b0, b1, b2, b3, b4, b5] => some (b0 * 256 + b1, b2 * 256 + b3, b4 * 256 + b5)
  | _ => none

/-- Whether a stack call is a `send` of exactly one byte. -/
def is_one_byte_send : StackCall → Bool
  | StackCall.send _ _ 1 _ => true
  | _ => false

/-- The number of one-byte sends in a trace of stack calls. -/
def one_byte_sends (calls : List StackCall) : Nat :=
  calls.countP is_one_byte_send

/-- The condition of line 196. -/
def class_b_precondition (s : State) : Bool :=
  !s.class_b_on && s.beacon_found && s.ping_slot_synched

/-- A state in which a beacon has been found and the ping slots are
synchronised while the device is still in class A. -/
def State.ready_for_class_b : State :=
  { State.initial with beacon_found := true, ping_slot_synched := true }

/-- The state with its trace of stack calls emptied: the flags, the
counters, the armed timers and the dispatch flag. -/
def State.without_calls (s : State) : State :=
  { s with calls := [] }

/-- The bookkeeping the `send_queued` flag is meant to keep: one armed send
timer when the flag is set, none when it is clear. -/
def timer_matches_flag (s : State) : Prop :=
  s.timers.length = if s.send_queued then 1 else 0

/-- A queued send has a timer to run it: when `send_queued` is set, at
least one send timer is armed. -/
def queued_has_timer (s : State) : Prop :=
  s.send_queued = true → 1 ≤ s.timers.length

/-- The state after a `TX_DONE` event at program start: a send is queued
and its timer is armed. -/
def State.after_tx_done : State :=
  { State.initial with
    send_queued := true
    timers := [10000]
    calls := [StackCall.get_backoff_metadata] }

/-- How the counters of the state `s'` after an event follow from those of
the state `s` before it: `rx` is unchanged or increased by one modulo 2^16;
`beacon_lock` is increased by one modulo 2^16 on `BEACON_FOUND` and
`BEACON_LOCK` and unchanged on every other event; `beacon_miss` is
increased by one modulo 2^16 on `BEACON_NOT_FOUND` and `BEACON_MISS` and
unchanged on every other event. -/
def counters_follow (event : lorawan_event_t) (s s' : State) : Prop :=
  (s'.app_data.rx = s.app_data.rx ∨ s'.app_data.rx = (s.app_data.rx + 1) % 65536)
  ∧ s'.app_data.beacon_lock =
      (if event = lorawan_event_t.BEACON_FOUND ∨ event = lorawan_event_t.BEACON_LOCK
       then (s.app_data.beacon_lock + 1) % 65536 else s.app_data.beacon_lock)
  ∧ s'.app_data.beacon_miss =
      (if event = lorawan_event_t.BEACON_NOT_FOUND ∨ event = lorawan_event_t.BEACON_MISS
       then (s.app_data.beacon_miss + 1) % 65536 else s.app_data.beacon_miss)

/-- A state whose two beacon counters are at the top of their 16-bit
range. -/
def State.counters_at_wrap : State :=
  { State.initial with app_data := { rx := 4, beacon_lock := 65535, beacon_miss := 65535 } }

/-! ## Supporting lemmas -/

/-- The masked high byte of a 16-bit value is its quotient by 256. -/
theorem high_byte_eq (x : Nat) (h : x < 65536) : (x >>> 8) &&& 0xff = x / 256 := by
  have hmask : (0xff : Nat) = 2 ^ 8 - 1 := by norm_num
  rw [Nat.shiftRight_eq_div_pow, hmask, Nat.and_pow_two_sub_one_eq_mod]
  exact Nat.mod_eq_of_lt (by omega)

/-- The masked low byte of a value is its remainder modulo 256. -/
theorem low_byte_eq (x : Nat) : x &&& 0xff = x % 256 := by
  have hmask : (0xff : Nat) = 2 ^ 8 - 1 := by norm_num
  rw [hmask, Nat.and_pow_two_sub_one_eq_mod]

/-- The frame of 16-bit counters, byte by byte. -/
theorem tx_buffer_eq (d : app_data_frame_t) (hbl : d.beacon_lock < 65536)
    (hbm : d.beacon_miss < 65536) (hrx : d.rx < 65536) :
    tx_buffer d =
      [ d.beacon_lock / 256, d.beacon_lock % 256
      , d.beacon_miss / 256, d.beacon_miss % 256
      , d.rx / 256, d.rx % 256 ] := by
  simp only [tx_buffer, high_byte_eq _ hbl, high_byte_eq _ hbm, high_byte_eq _ hrx,
    low_byte_eq]

/-- With a stack answer above 255 the printing loop never exits, whatever
the fuel. -/
theorem print_loop_stuck (retcode : Int) (h : 255 < retcode) (fuel i : Nat) (hi : i < 256) :
    print_loop fuel i retcode = false := by
  induction fuel generalizing i with
  | zero => rfl
  | succ n ih =>
    have hlt : (i : Int) < retcode := by omega
    simp only [print_loop, hlt, if_true]
    exact ih _ (Nat.mod_lt _ (by decide))

/-- With a stack answer of at most 255 the printing loop exits as soon as
the fuel covers the distance to 256. -/
theorem print_loop_exits (retcode : Int) (h : retcode ≤ 255) (fuel i : Nat) (hi : i < 256)
    (hfuel : 256 < fuel + i) : print_loop fuel i retcode = true := by
  induction fuel generalizing i with
  | zero => omega
  | succ n ih =>
    by_cases hlt : (i : Int) < retcode
    · have hi1 : i + 1 < 256 := by omega
      simp only [print_loop, hlt, if_true, Nat.mod_eq_of_lt hi1]
      exact ih _ hi1 (by omega)
    · simp only [print_loop, hlt, if_false]

/-- When no send is queued, `queue_next_send_message` arms one timer whose
delay is the value of `APP_DUTY_CYCLE`, whatever backoff the stack
reports. -/
theorem queue_next_send_message_arms (env : Stack) (s : State) (h : s.send_queued = false) :
    queue_next_send_message env s =
      { s with
        send_queued := true
        timers := s.timers ++ [APP_DUTY_CYCLE s]
        calls := s.calls ++ [StackCall.get_backoff_metadata] } := by
  unfold queue_next_send_message
  simp only [h, Bool.false_eq_true, if_false]
  split <;> simp

/-- When a send is queued, `queue_next_send_message` returns at line 88. -/
theorem queue_next_send_message_queued (env : Stack) (s : State) (h : s.send_queued = true) :
    queue_next_send_message env s = s := by
  simp [queue_next_send_message, h]

/-- After `queue_next_send_message` a send is queued. -/
theorem queue_next_send_message_sets_queued (env : Stack) (s : State) :
    (queue_next_send_message env s).send_queued = true := by
  cases h : s.send_queued
  · rw [queue_next_send_message_arms env s h]
  · rw [queue_next_send_message_queued env s h]; exact h

/-- A step that delivers an event succeeds exactly when the handler
returns. -/
theorem step_event_eq_some (env : Stack) (e : lorawan_event_t) (s s' : State) :
    step env (Step.event e) s = some s' ↔ lora_event_handler env e s = Outcome.returned s' := by
  show (lora_event_handler env e s).state? = some s' ↔ _
  cases h : lora_event_handler env e s <;> simp [Outcome.state?]

/-- The timers `send_message` leaves armed: those armed before, and one
more exactly when it ends with `send_queued` set. -/
theorem send_message_timers (env : Stack) (s : State) :
    (send_message env s).timers.length
      = s.timers.length + (if (send_message env s).send_queued then 1 else 0) := by
  unfold send_message
  by_cases hneg : env.send < 0
  · simp only [hneg, if_true]
    rw [queue_next_send_message_arms _ _ rfl]
    simp
  · simp [hneg]

/-- Every event other than `CONNECTED` and the transmission events leaves
`send_queued` and the armed timers as they were. -/
theorem lora_event_handler_keeps_timers (env : Stack) (e : lorawan_event_t) (s s' : State)
    (hret : lora_event_handler env e s = Outcome.returned s') :
    e = lorawan_event_t.CONNECTED ∨ e = lorawan_event_t.TX_DONE
    ∨ e = lorawan_event_t.TX_TIMEOUT ∨ e = lorawan_event_t.TX_ERROR
    ∨ e = lorawan_event_t.TX_CRYPTO_ERROR ∨ e = lorawan_event_t.TX_SCHEDULING_ERROR
    ∨ (s'.timers = s.timers ∧ s'.send_queued = s.send_queued) := by
  cases e <;>
    simp only [lora_event_handler, enable_beacon_acquisition, receive_message,
      switch_to_class_b, print_received_beacon, MBED_ASSERT, string_literal_to_bool] at hret
  all_goals (try split at hret)
  all_goals (try split at hret)
  all_goals (try cases hret)
  all_goals simp

/-- After `queue_next_send_message` the armed timers agree with
`send_queued` if they did before. -/
theorem queue_next_send_message_keeps_match (env : Stack) (s : State)
    (hinv : timer_matches_flag s) : timer_matches_flag (queue_next_send_message env s) := by
  unfold timer_matches_flag at *
  cases hs : s.send_queued
  · rw [queue_next_send_message_arms _ _ hs]
    rw [hs] at hinv
    simp at hinv
    simp [hinv]
  · rw [queue_next_send_message_queued _ _ hs, hs]
    rw [hs] at hinv
    exact hinv

/-- One step that is not a `CONNECTED` event keeps the armed timers in
agreement with `send_queued`. -/
theorem timer_matches_flag_step (env : Stack) (a : Step) (s s' : State)
    (hinv : timer_matches_flag s) (ha : a ≠ Step.event lorawan_event_t.CONNECTED)
    (hstep : step env a s = some s') : timer_matches_flag s' := by
  cases a with
  | timer i =>
    simp only [step, fire_timer] at hstep
    split at hstep
    · next hi =>
      unfold timer_matches_flag at *
      have hone : s.timers.length = 1 := by
        cases hs : s.send_queued
        · rw [hs] at hinv; simp at hinv; rw [hinv] at hi; simp at hi
        · rw [hs] at hinv; simpa using hinv
      have hlen : (s.timers.eraseIdx i).length = 0 := by
        rw [List.length_eraseIdx, if_pos hi, hone]
      cases hstep
      rw [send_message_timers]
      simp [hlen]
    · cases hstep
  | event e =>
    rw [step_event_eq_some] at hstep
    have hframe := lora_event_handler_keeps_timers env e s s' hstep
    have hq : lora_event_handler env e s = Outcome.returned (queue_next_send_message env s) →
        timer_matches_flag s' := by
      intro h
      rw [h] at hstep
      cases hstep
      exact queue_next_send_message_keeps_match env s hinv
    rcases hframe with h | h | h | h | h | h | ⟨h1, h2⟩
    · exact absurd (by rw [h]) ha
    · subst h; exact hq rfl
    · subst h; exact hq rfl
    · subst h; exact hq rfl
    · subst h; exact hq rfl
    · subst h; exact hq rfl
    · unfold timer_matches_flag at *
      rw [h1, h2]; exact hinv

/-- From a state in which the armed timers agree with `send_queued`, a
sequence of steps without a `CONNECTED` event ends in such a state, hence
with at most one armed send timer. -/
theorem one_send_timer_without_connected (l : List (Stack × Step)) (s s' : State)
    (hinv : timer_matches_flag s)
    (hl : ∀ x ∈ l, x.2 ≠ Step.event lorawan_event_t.CONNECTED)
    (hrun : run l s = some s') :
    timer_matches_flag s' ∧ s'.timers.length ≤ 1 := by
  induction l generalizing s with
  | nil =>
    cases hrun
    refine ⟨hinv, ?_⟩
    unfold timer_matches_flag at hinv
    rw [hinv]; split <;> omega
  | cons x rest ih =>
    obtain ⟨env, a⟩ := x
    simp only [run] at hrun
    cases hmid : step env a s with
    | none => rw [hmid] at hrun; cases hrun
    | some m =>
      rw [hmid] at hrun
      exact ih m
        (timer_matches_flag_step env a s m hinv (hl (env, a) (List.mem_cons_self _ _)) hmid)
        (fun y hy => hl y (List.mem_cons_of_mem _ hy)) hrun

/-! ## Claims -/

/-- C1 (fails on the code): the device joins and its first uplink is sent
(`CONNECTED`, `TX_DONE` arms the send timer); a second `CONNECTED` arrives
before the timer fires and runs `send_message` inline, which clears
`send_queued` while that timer is still armed; the `TX_DONE` of this uplink
arms a second timer.  Every stack request succeeds, and the state reached
has two armed send timers. -/
theorem two_send_timers_armed :
    Option.map State.timers
        (run [ (Stack.accepting, Step.event lorawan_event_t.CONNECTED)
             , (Stack.accepting, Step.event lorawan_event_t.TX_DONE)
             , (Stack.accepting, Step.event lorawan_event_t.CONNECTED)
             , (Stack.accepting, Step.event lorawan_event_t.TX_DONE) ]
          State.initial)
      = some [10000, 10000]
    ∧ ¬ (∀ s : State, Reachable s → s.timers.length ≤ 1) := by
  have hrun : Option.map State.timers
        (run [ (Stack.accepting, Step.event lorawan_event_t.CONNECTED)
             , (Stack.accepting, Step.event lorawan_event_t.TX_DONE)
             , (Stack.accepting, Step.event lorawan_event_t.CONNECTED)
             , (Stack.accepting, Step.event lorawan_event_t.TX_DONE) ]
          State.initial)
      = some [10000, 10000] := by decide
  refine ⟨hrun, fun hall => ?_⟩
  cases hs : run [ (Stack.accepting, Step.event lorawan_event_t.CONNECTED)
             , (Stack.accepting, Step.event lorawan_event_t.TX_DONE)
             , (Stack.accepting, Step.event lorawan_event_t.CONNECTED)
             , (Stack.accepting, Step.event lorawan_event_t.TX_DONE) ]
          State.initial with
  | none => rw [hs] at hrun; cases hrun
  | some s2 =>
    rw [hs] at hrun
    have hlen := hall s2 ⟨_, hs⟩
    simp only [Option.map_some', Option.some.injEq] at hrun
    rw [hrun] at hlen
    simp at hlen

/-- C2 (fails on the code): with no send queued, both synchronisation flags
false and a reported backoff of 20000, the timer is armed with delay 10000,
where the larger of floor and backoff is 20000. -/
theorem queue_next_send_message_drops_backoff :
    (queue_next_send_message { Stack.accepting with get_backoff_metadata := 20000 }
        State.initial).timers = [10000]
    ∧ spec_delay State.initial 20000 = 20000 := by
  constructor <;> decide

/-- C3: the first call of `queue_next_send_message` leaves `send_queued`
true; any number of further calls, with any stack answers, return the state
the first call produced (same flags, same timers, same calls); and after a
`TX_ERROR` event a `TX_DONE` event returns the state unchanged. -/
theorem queue_next_send_message_once (env : Stack) (later : List Stack) (s : State) :
    (queue_next_send_message env s).send_queued = true
    ∧ queue_next_send_message_times (env :: later) s = queue_next_send_message env s
    ∧ (∀ env2 : Stack,
        queue_next_send_message env2 (queue_next_send_message env s)
          = queue_next_send_message env s)
    ∧ (∀ env2 : Stack, ∃ s1 : State,
        lora_event_handler env lorawan_event_t.TX_ERROR s = Outcome.returned s1
        ∧ lora_event_handler env2 lorawan_event_t.TX_DONE s1 = Outcome.returned s1) := by
  have hq := queue_next_send_message_sets_queued env s
  have hfix : ∀ env2 : Stack,
      queue_next_send_message env2 (queue_next_send_message env s)
        = queue_next_send_message env s :=
    fun env2 => queue_next_send_message_queued env2 _ hq
  refine ⟨hq, ?_, hfix, ?_⟩
  · show List.foldl _ (queue_next_send_message env s) later = _
    induction later with
    | nil => rfl
    | cons e rest ih => rw [List.foldl_cons, hfix e]; exact ih
  · intro env2
    exact ⟨queue_next_send_message env s, rfl, by
      show Outcome.returned _ = _
      rw [hfix env2]⟩

/-- C4 (fails on the code): for every event value outside the named cases
the handler returns normally with the state unchanged; the argument of the
`MBED_ASSERT` of line 290 is a string literal, which is never false. -/
theorem unknown_event_returns (env : Stack) (code : Nat) (s : State) :
    lora_event_handler env (lorawan_event_t.UNKNOWN code) s = Outcome.returned s := by
  rfl

/-- C5 (as stated, fails): the beacon-acquisition request succeeds, the
device-time request fails with -1, and the function returns -1. -/
theorem enable_beacon_acquisition_not_first_status :
    (enable_beacon_acquisition { Stack.accepting with add_device_time_request := -1 }
        State.initial).1
      ≠ ({ Stack.accepting with add_device_time_request := -1 } : Stack).enable_beacon_acquisition := by
  decide

/-- C5 (amended): `enable_beacon_acquisition` returns the status of the
device-time request, whatever the status of the beacon-acquisition
request. -/
theorem enable_beacon_acquisition_returns_device_time_status (env : Stack) (s : State) :
    (enable_beacon_acquisition env s).1 = env.add_device_time_request := by
  rfl

/-- C6: when the condition of line 196 is false, `switch_to_class_b` returns
the state as it was (no flag changed, no call made); when it is true and
`set_device_class(CLASS_B)` answers OK, the only changes are `class_b_on`
set and two calls appended: the class request and one unconfirmed send of
length 1 on port 15. -/
theorem switch_to_class_b_effect (env : Stack) (s : State) :
    (class_b_precondition s = false → switch_to_class_b env s = s)
    ∧ (class_b_precondition s = true → env.set_device_class = LORAWAN_STATUS_OK →
        switch_to_class_b env s =
          { s with
            class_b_on := true
            calls := s.calls ++
              [ StackCall.set_device_class device_class_t.CLASS_B
              , StackCall.send MBED_CONF_LORA_APP_PORT [env.dummy_value % 256] 1
                  MSG_UNCONFIRMED_FLAG ] }
        ∧ one_byte_sends (switch_to_class_b env s).calls = one_byte_sends s.calls + 1) := by
  unfold class_b_precondition
  refine ⟨fun h => ?_, fun h hok => ?_⟩
  · simp [switch_to_class_b, h]
  · have hstate : switch_to_class_b env s =
          { s with
            class_b_on := true
            calls := s.calls ++
              [ StackCall.set_device_class device_class_t.CLASS_B
              , StackCall.send MBED_CONF_LORA_APP_PORT [env.dummy_value % 256] 1
                  MSG_UNCONFIRMED_FLAG ] } := by
      simp [switch_to_class_b, h, hok]
    refine ⟨hstate, ?_⟩
    rw [hstate]
    simp [one_byte_sends, List.countP_append, List.countP_cons, is_one_byte_send]

/-- C6 at two concrete states: at program start the call changes nothing;
with beacon found and ping slots synchronised it switches the class and
sends one byte. -/
theorem switch_to_class_b_effect_witness :
    switch_to_class_b Stack.accepting State.initial = State.initial
    ∧ (switch_to_class_b Stack.accepting State.ready_for_class_b =
        { State.ready_for_class_b with
          class_b_on := true
          calls := [ StackCall.set_device_class device_class_t.CLASS_B
                   , StackCall.send 15 [0] 1 1 ] }
      ∧ one_byte_sends (switch_to_class_b Stack.accepting State.ready_for_class_b).calls
          = one_byte_sends State.ready_for_class_b.calls + 1) :=
  ⟨(switch_to_class_b_effect Stack.accepting State.initial).1 (by decide),
   (switch_to_class_b_effect Stack.accepting State.ready_for_class_b).2 (by decide)
     (by decide)⟩

/-- C7: for 16-bit counters, `send_message` makes exactly one `send` call:
port 15, the six bytes high/low of `beacon_lock`, high/low of
`beacon_miss`, high/low of `rx`, length 6, unconfirmed flag; the only other
call it can make is the backoff query after a refused send. -/
theorem send_message_frame (env : Stack) (s : State)
    (hbl : s.app_data.beacon_lock < 65536) (hbm : s.app_data.beacon_miss < 65536)
    (hrx : s.app_data.rx < 65536) :
    (send_message env s).calls =
      s.calls ++
        StackCall.send 15
          [ s.app_data.beacon_lock / 256, s.app_data.beacon_lock % 256
          , s.app_data.beacon_miss / 256, s.app_data.beacon_miss % 256
          , s.app_data.rx / 256, s.app_data.rx % 256 ]
          6 MSG_UNCONFIRMED_FLAG
        :: (if env.send < 0 then [StackCall.get_backoff_metadata] else [])
    ∧ (tx_buffer s.app_data).length = 6 := by
  refine ⟨?_, rfl⟩
  unfold send_message
  by_cases hneg : env.send < 0
  · simp only [hneg, if_true]
    rw [queue_next_send_message_arms _ _ rfl]
    simp [tx_buffer_eq _ hbl hbm hrx, MBED_CONF_LORA_APP_PORT]
  · simp [hneg, tx_buffer_eq _ hbl hbm hrx, MBED_CONF_LORA_APP_PORT]

/-- C7 at the counters beacon_lock = 258, beacon_miss = 1, rx = 3 with an
accepting stack: the bytes sent are 01 02 00 01 00 03. -/
theorem send_message_frame_witness :
    (send_message Stack.accepting
        { State.initial with app_data := { rx := 3, beacon_lock := 258, beacon_miss := 1 } }).calls
      = [] ++ StackCall.send 15 [258 / 256, 258 % 256, 1 / 256, 1 % 256, 3 / 256, 3 % 256] 6
          MSG_UNCONFIRMED_FLAG
        :: (if Stack.accepting.send < 0 then [StackCall.get_backoff_metadata] else [])
    ∧ (tx_buffer { rx := 3, beacon_lock := 258, beacon_miss := 1 }).length = 6 :=
  send_message_frame Stack.accepting
    { State.initial with app_data := { rx := 3, beacon_lock := 258, beacon_miss := 1 } }
    (by decide) (by decide) (by decide)

/-- C8: for 16-bit counters, decoding the frame of `send_message` as three
big-endian 16-bit fields gives back (beacon_lock, beacon_miss, rx); and the
counters rx = 3, beacon_lock = 257, beacon_miss = 1 encode to
01 01 00 01 00 03. -/
theorem tx_buffer_roundtrip (d : app_data_frame_t) (hbl : d.beacon_lock < 65536)
    (hbm : d.beacon_miss < 65536) (hrx : d.rx < 65536) :
    decode_frame (tx_buffer d) = some (d.beacon_lock, d.beacon_miss, d.rx)
    ∧ tx_buffer { rx := 3, beacon_lock := 257, beacon_miss := 1 } = [1, 1, 0, 1, 0, 3] := by
  refine ⟨?_, by decide⟩
  rw [tx_buffer_eq d hbl hbm hrx]
  simp only [decode_frame, Nat.div_add_mod']

/-- C8 at rx = 3, beacon_lock = 257, beacon_miss = 1. -/
theorem tx_buffer_roundtrip_witness :
    decode_frame (tx_buffer { rx := 3, beacon_lock := 257, beacon_miss := 1 })
      = some (257, 1, 3)
    ∧ tx_buffer { rx := 3, beacon_lock := 257, beacon_miss := 1 } = [1, 1, 0, 1, 0, 3] :=
  tx_buffer_roundtrip { rx := 3, beacon_lock := 257, beacon_miss := 1 }
    (by decide) (by decide) (by decide)

/-- C9: when `lora_event_handler` starts with `class_b_on` false and returns
a state with `class_b_on` true, that state has `beacon_found` and
`ping_slot_synched` true, for every event and every stack answer. -/
theorem class_b_on_needs_sync (env : Stack) (event : lorawan_event_t) (s s' : State)
    (hoff : s.class_b_on = false)
    (hret : lora_event_handler env event s = Outcome.returned s')
    (hon : s'.class_b_on = true) :
    s'.beacon_found = true ∧ s'.ping_slot_synched = true := by
  cases event <;>
    simp only [lora_event_handler, enable_beacon_acquisition, send_message,
      queue_next_send_message, receive_message, switch_to_class_b, print_received_beacon,
      MBED_ASSERT, string_literal_to_bool] at hret
  all_goals (try split at hret)
  all_goals (try split at hret)
  all_goals (try split at hret)
  all_goals (try cases hret)
  all_goals simp_all

/-- C9 at a state with a beacon found, on `PING_SLOT_INFO_SYNCHED` with an
accepting stack: the handler switches to class B. -/
theorem class_b_on_needs_sync_witness :
    lora_event_handler Stack.accepting lorawan_event_t.PING_SLOT_INFO_SYNCHED
        { State.initial with beacon_found := true }
      = Outcome.returned
          { State.ready_for_class_b with
            class_b_on := true
            calls := [ StackCall.set_device_class device_class_t.CLASS_B
                     , StackCall.send 15 [0] 1 1 ] }
    ∧ ({ State.ready_for_class_b with
            class_b_on := true
            calls := [ StackCall.set_device_class device_class_t.CLASS_B
                     , StackCall.send 15 [0] 1 1 ] } : State).beacon_found = true
    ∧ ({ State.ready_for_class_b with
            class_b_on := true
            calls := [ StackCall.set_device_class device_class_t.CLASS_B
                     , StackCall.send 15 [0] 1 1 ] } : State).ping_slot_synched = true :=
  ⟨by decide,
   class_b_on_needs_sync Stack.accepting lorawan_event_t.PING_SLOT_INFO_SYNCHED
     { State.initial with beacon_found := true } _ (by decide) (by decide) (by decide)⟩

/-- C10: when every `set_device_class` answers OK, `BEACON_FOUND` then
`PING_SLOT_INFO_SYNCHED` and `PING_SLOT_INFO_SYNCHED` then `BEACON_FOUND`
both run to completion and end in states that agree on every flag, counter
and timer; `class_b_on`, `beacon_found` and `ping_slot_synched` are true
there; and from a state with `class_b_on` false each order adds exactly one
one-byte send to the trace. -/
theorem beacon_found_ping_slot_commute (e1 e2 e3 e4 : Stack) (s : State)
    (h1 : e1.set_device_class = LORAWAN_STATUS_OK)
    (h2 : e2.set_device_class = LORAWAN_STATUS_OK)
    (h3 : e3.set_device_class = LORAWAN_STATUS_OK)
    (h4 : e4.set_device_class = LORAWAN_STATUS_OK) :
    ∃ a b : State,
      run [ (e1, Step.event lorawan_event_t.BEACON_FOUND)
          , (e2, Step.event lorawan_event_t.PING_SLOT_INFO_SYNCHED) ] s = some a
      ∧ run [ (e3, Step.event lorawan_event_t.PING_SLOT_INFO_SYNCHED)
            , (e4, Step.event lorawan_event_t.BEACON_FOUND) ] s = some b
      ∧ a.without_calls = b.without_calls
      ∧ a.class_b_on = true ∧ a.beacon_found = true ∧ a.ping_slot_synched = true
      ∧ (s.class_b_on = false →
          one_byte_sends a.calls = one_byte_sends s.calls + 1
          ∧ one_byte_sends b.calls = one_byte_sends s.calls + 1) := by
  obtain ⟨sq, cb, ps, dt, bf, ad, tm, cl, db⟩ := s
  cases cb <;> cases ps <;> cases bf <;>
    simp [run, step, Outcome.state?, lora_event_handler, switch_to_class_b, print_received_beacon,
      State.without_calls, one_byte_sends, is_one_byte_send, List.countP_append,
      List.countP_cons, h1, h2, h3, h4]

/-- C10 at program start with an accepting stack. -/
theorem beacon_found_ping_slot_commute_witness :
    ∃ a b : State,
      run [ (Stack.accepting, Step.event lorawan_event_t.BEACON_FOUND)
          , (Stack.accepting, Step.event lorawan_event_t.PING_SLOT_INFO_SYNCHED) ]
          State.initial = some a
      ∧ run [ (Stack.accepting, Step.event lorawan_event_t.PING_SLOT_INFO_SYNCHED)
            , (Stack.accepting, Step.event lorawan_event_t.BEACON_FOUND) ]
            State.initial = some b
      ∧ a.without_calls = b.without_calls
      ∧ a.class_b_on = true ∧ a.beacon_found = true ∧ a.ping_slot_synched = true
      ∧ (State.initial.class_b_on = false →
          one_byte_sends a.calls = one_byte_sends State.initial.calls + 1
          ∧ one_byte_sends b.calls = one_byte_sends State.initial.calls + 1) :=
  beacon_found_ping_slot_commute Stack.accepting Stack.accepting Stack.accepting
    Stack.accepting State.initial rfl rfl rfl rfl

/-- C11: for every prior state and every pair of statuses, after
`enable_beacon_acquisition` the flags `beacon_found` and
`device_time_synched` are false, and nothing else of the state differs but
the two requests appended to the trace of stack calls: `class_b_on`,
`ping_slot_synched`, `send_queued`, the counters and the timers are as
before. -/
theorem enable_beacon_acquisition_resets (env : Stack) (s : State) :
    (enable_beacon_acquisition env s).2 =
      { s with
        beacon_found := false
        device_time_synched := false
        calls := s.calls ++
          [StackCall.enable_beacon_acquisition, StackCall.add_device_time_request] }
    ∧ (enable_beacon_acquisition env s).2.beacon_found = false
    ∧ (enable_beacon_acquisition env s).2.device_time_synched = false
    ∧ (enable_beacon_acquisition env s).2.class_b_on = s.class_b_on
    ∧ (enable_beacon_acquisition env s).2.ping_slot_synched = s.ping_slot_synched
    ∧ (enable_beacon_acquisition env s).2.send_queued = s.send_queued
    ∧ (enable_beacon_acquisition env s).2.app_data = s.app_data := by
  simp [enable_beacon_acquisition]

/-- C12: after `send_message`, `send_queued` is true exactly when `send`
returned a negative value; in that case one timer has been added to those
armed before and the calls made are the one `send` and the backoff query;
otherwise the timers are as before, `send_queued` is false and the only
call is the one `send`.  The prior value of `send_queued` plays no part. -/
theorem send_message_retry (env : Stack) (s : State) :
    ((send_message env s).send_queued = true ↔ env.send < 0)
    ∧ (env.send < 0 →
        (send_message env s).timers = s.timers ++ [APP_DUTY_CYCLE s]
        ∧ (send_message env s).calls =
            s.calls ++
              [ StackCall.send MBED_CONF_LORA_APP_PORT (tx_buffer s.app_data) 6
                  MSG_UNCONFIRMED_FLAG
              , StackCall.get_backoff_metadata ])
    ∧ (0 ≤ env.send →
        (send_message env s).timers = s.timers
        ∧ (send_message env s).send_queued = false
        ∧ (send_message env s).calls =
            s.calls ++
              [ StackCall.send MBED_CONF_LORA_APP_PORT (tx_buffer s.app_data) 6
                  MSG_UNCONFIRMED_FLAG ]) := by
  unfold send_message
  by_cases hneg : env.send < 0
  · have hnot : ¬ (0 ≤ env.send) := by omega
    simp only [hneg, if_true]
    rw [queue_next_send_message_arms _ _ rfl]
    simp [hnot, APP_DUTY_CYCLE]
  · have hpos : 0 ≤ env.send := by omega
    simp [hneg, hpos]

/-- C12 at a state with a send already queued: a refused send (-1) leaves
`send_queued` true with one more timer, an accepted one leaves it false. -/
theorem send_message_retry_witness :
    ((send_message { Stack.accepting with send := -1 }
          { State.initial with send_queued := true, timers := [10000] }).timers
        = [10000] ++ [APP_DUTY_CYCLE { State.initial with send_queued := true, timers := [10000] }]
      ∧ (send_message { Stack.accepting with send := -1 }
          { State.initial with send_queued := true, timers := [10000] }).calls
        = [] ++ [ StackCall.send MBED_CONF_LORA_APP_PORT
                    (tx_buffer State.initial.app_data) 6 MSG_UNCONFIRMED_FLAG
                , StackCall.get_backoff_metadata ])
    ∧ ((send_message Stack.accepting
          { State.initial with send_queued := true, timers := [10000] }).timers = [10000]
      ∧ (send_message Stack.accepting
          { State.initial with send_queued := true, timers := [10000] }).send_queued = false
      ∧ (send_message Stack.accepting
          { State.initial with send_queued := true, timers := [10000] }).calls
        = [] ++ [ StackCall.send MBED_CONF_LORA_APP_PORT
                    (tx_buffer State.initial.app_data) 6 MSG_UNCONFIRMED_FLAG ]) :=
  ⟨(send_message_retry { Stack.accepting with send := -1 }
      { State.initial with send_queued := true, timers := [10000] }).2.1 (by decide),
   (send_message_retry Stack.accepting
      { State.initial with send_queued := true, timers := [10000] }).2.2 (by decide)⟩

/-- C13 (as stated, fails): when `receive` returns -1 the handler returns
with `rx` still 0, not 1 (line 158 returns before line 160); and when
`receive` returns 256 the handler does not return, the 8-bit counter of the
printing loop never reaching 256. -/
theorem rx_done_not_always_counted :
    (lora_event_handler { Stack.accepting with receive := -1 } lorawan_event_t.RX_DONE
        State.initial).state?.map (fun s => s.app_data.rx) = some 0
    ∧ lora_event_handler { Stack.accepting with receive := 256 } lorawan_event_t.RX_DONE
        State.initial = Outcome.diverges := by
  refine ⟨by decide, ?_⟩
  have hloop : print_loop 257 0 256 = false :=
    print_loop_stuck 256 (by decide) 257 0 (by decide)
  simp [lora_event_handler, receive_message, Stack.accepting, hloop]

/-- C13 (amended): when `receive` returns at most 255, handling `RX_DONE`
calls `receive` once with a 255-byte buffer and returns; on a negative
result nothing else changes, on a result from 0 to 255 the only other
change is `rx` incremented by one modulo 2^16. -/
theorem rx_done_effect (env : Stack) (s : State) (hlen : env.receive ≤ 255) :
    lora_event_handler env lorawan_event_t.RX_DONE s =
      Outcome.returned
        (if env.receive < 0 then
          { s with calls := s.calls ++ [StackCall.receive 255] }
        else
          { s with
            app_data := { s.app_data with rx := (s.app_data.rx + 1) % 65536 }
            calls := s.calls ++ [StackCall.receive 255] }) := by
  have hloop : print_loop 257 0 env.receive = true :=
    print_loop_exits env.receive hlen 257 0 (by decide) (by decide)
  simp only [lora_event_handler, receive_message, hloop, if_true]
  split <;> rfl

/-- C13 (amended) at a counter about to wrap, with 3 bytes received. -/
theorem rx_done_effect_witness :
    lora_event_handler { Stack.accepting with receive := 3 } lorawan_event_t.RX_DONE
        { State.initial with app_data := { rx := 65535, beacon_lock := 7, beacon_miss := 2 } }
      = Outcome.returned
          (if ({ Stack.accepting with receive := 3 } : Stack).receive < 0 then
            { State.initial with
              app_data := { rx := 65535, beacon_lock := 7, beacon_miss := 2 }
              calls := [] ++ [StackCall.receive 255] }
          else
            { State.initial with
              app_data := { rx := (65535 + 1) % 65536, beacon_lock := 7, beacon_miss := 2 }
              calls := [] ++ [StackCall.receive 255] }) :=
  rx_done_effect { Stack.accepting with receive := 3 }
    { State.initial with app_data := { rx := 65535, beacon_lock := 7, beacon_miss := 2 } }
    (by decide)

/-- C14: for every prior state and every stack answer, handling `CONNECTED`
returns, and the calls it makes are, in order, the ping-slot-info request
with `PING_SLOT_PERIODICITY`, the beacon-acquisition request, the
device-time request and the send of the six-byte frame on port 15 (followed
by the backoff query only when the send is refused); afterwards
`beacon_found` and `device_time_synched` are false. -/
theorem connected_effect (env : Stack) (s : State) :
    ∃ s' : State,
      lora_event_handler env lorawan_event_t.CONNECTED s = Outcome.returned s'
      ∧ s'.calls =
          s.calls ++
            [ StackCall.add_ping_slot_info_request env.PING_SLOT_PERIODICITY
            , StackCall.enable_beacon_acquisition
            , StackCall.add_device_time_request
            , StackCall.send MBED_CONF_LORA_APP_PORT (tx_buffer s.app_data) 6
                MSG_UNCONFIRMED_FLAG ]
            ++ (if env.send < 0 then [StackCall.get_backoff_metadata] else [])
      ∧ (tx_buffer s.app_data).length = 6
      ∧ s'.beacon_found = false
      ∧ s'.device_time_synched = false := by
  refine ⟨_, rfl, ?_, rfl, ?_, ?_⟩
  all_goals
    simp only [enable_beacon_acquisition, send_message]
    by_cases hneg : env.send < 0
    · simp only [hneg, if_true]
      rw [queue_next_send_message_arms _ _ rfl]
      try simp
    · simp [hneg]

/-- C15: when the condition of line 196 holds and `set_device_class(CLASS_B)`
answers anything but OK, `switch_to_class_b` changes nothing but the trace
of stack calls, to which the class request alone is appended: `class_b_on`
stays false, `send_queued`, the other flags, the counters and the timers
are as before, and no send is made. -/
theorem switch_to_class_b_refused (env : Stack) (s : State)
    (hpre : class_b_precondition s = true)
    (hfail : env.set_device_class ≠ LORAWAN_STATUS_OK) :
    switch_to_class_b env s =
      { s with calls := s.calls ++ [StackCall.set_device_class device_class_t.CLASS_B] }
    ∧ (switch_to_class_b env s).class_b_on = false
    ∧ (switch_to_class_b env s).send_queued = s.send_queued
    ∧ (switch_to_class_b env s).timers = s.timers := by
  unfold class_b_precondition at hpre
  have hstate : switch_to_class_b env s =
      { s with calls := s.calls ++ [StackCall.set_device_class device_class_t.CLASS_B] } := by
    simp [switch_to_class_b, hpre, hfail]
  rw [hstate]
  refine ⟨rfl, ?_, rfl, rfl⟩
  simp only [Bool.and_eq_true, Bool.not_eq_true'] at hpre
  exact hpre.1.1

/-- C15 with beacon found, ping slots synchronised and the class request
answered -1. -/
theorem switch_to_class_b_refused_witness :
    switch_to_class_b { Stack.accepting with set_device_class := -1 } State.ready_for_class_b =
      { State.ready_for_class_b with
        calls := State.ready_for_class_b.calls
          ++ [StackCall.set_device_class device_class_t.CLASS_B] }
    ∧ (switch_to_class_b { Stack.accepting with set_device_class := -1 }
        State.ready_for_class_b).class_b_on = false
    ∧ (switch_to_class_b { Stack.accepting with set_device_class := -1 }
        State.ready_for_class_b).send_queued = State.ready_for_class_b.send_queued
    ∧ (switch_to_class_b { Stack.accepting with set_device_class := -1 }
        State.ready_for_class_b).timers = State.ready_for_class_b.timers :=
  switch_to_class_b_refused { Stack.accepting with set_device_class := -1 }
    State.ready_for_class_b (by decide) (by decide)

/-- C16: after any step (an event handled, or a send timer fired), with any
stack answers, `ping_slot_synched` is true if the step is the
`PING_SLOT_INFO_SYNCHED` event and keeps its prior value otherwise. -/
theorem ping_slot_synched_step (env : Stack) (a : Step) (s s' : State)
    (hstep : step env a s = some s') :
    s'.ping_slot_synched =
      (if a = Step.event lorawan_event_t.PING_SLOT_INFO_SYNCHED then true
       else s.ping_slot_synched) := by
  cases a with
  | timer i =>
    simp only [step, fire_timer] at hstep
    split at hstep
    · cases hstep
      simp only [send_message, queue_next_send_message]
      split <;> simp
    · cases hstep
  | event e =>
    rw [step_event_eq_some] at hstep
    cases e <;>
      simp only [lora_event_handler, enable_beacon_acquisition, send_message,
        queue_next_send_message, receive_message, switch_to_class_b, print_received_beacon,
        MBED_ASSERT, string_literal_to_bool] at hstep
    all_goals (try split at hstep)
    all_goals (try split at hstep)
    all_goals (try split at hstep)
    all_goals (try cases hstep)
    all_goals simp_all

/-- C16 on `SWITCH_CLASS_B_TO_A` from a state with `ping_slot_synched`
true: the flag stays true. -/
theorem ping_slot_synched_step_witness :
    step Stack.accepting (Step.event lorawan_event_t.SWITCH_CLASS_B_TO_A)
        State.ready_for_class_b
      = some
          { State.ready_for_class_b with
            beacon_found := false
            calls := [StackCall.enable_beacon_acquisition, StackCall.add_device_time_request] }
    ∧ ({ State.ready_for_class_b with
            beacon_found := false
            calls := [StackCall.enable_beacon_acquisition, StackCall.add_device_time_request] }
          : State).ping_slot_synched
        = (if Step.event lorawan_event_t.SWITCH_CLASS_B_TO_A
              = Step.event lorawan_event_t.PING_SLOT_INFO_SYNCHED then true
           else State.ready_for_class_b.ping_slot_synched) :=
  ⟨by decide,
   ping_slot_synched_step Stack.accepting (Step.event lorawan_event_t.SWITCH_CLASS_B_TO_A)
     State.ready_for_class_b _ (by decide)⟩

/-- C17: with no send queued, `queue_next_send_message` arms one timer, and
its delay is at least 60000 when `device_time_synched` and
`ping_slot_synched` are both true and at least 10000 otherwise, whatever
backoff the stack reports. -/
theorem queue_next_send_message_delay_floor (env : Stack) (s : State)
    (hidle : s.send_queued = false) :
    ∃ delay : Int,
      (queue_next_send_message env s).timers = s.timers ++ [delay]
      ∧ (s.device_time_synched = true ∧ s.ping_slot_synched = true → 60000 ≤ delay)
      ∧ (¬ (s.device_time_synched = true ∧ s.ping_slot_synched = true) → 10000 ≤ delay) := by
  refine ⟨APP_DUTY_CYCLE s, ?_, ?_, ?_⟩
  · rw [queue_next_send_message_arms env s hidle]
  · rintro ⟨hd, hp⟩
    simp [APP_DUTY_CYCLE, hd, hp]
  · intro hnot
    unfold APP_DUTY_CYCLE
    split <;> omega

/-- C17 at program start with a reported backoff of 3: the delay armed is
10000. -/
theorem queue_next_send_message_delay_floor_witness :
    ∃ delay : Int,
      (queue_next_send_message { Stack.accepting with get_backoff_metadata := 3 }
          State.initial).timers = State.initial.timers ++ [delay]
      ∧ (State.initial.device_time_synched = true ∧ State.initial.ping_slot_synched = true →
          60000 ≤ delay)
      ∧ (¬ (State.initial.device_time_synched = true ∧ State.initial.ping_slot_synched = true) →
          10000 ≤ delay) :=
  queue_next_send_message_delay_floor { Stack.accepting with get_backoff_metadata := 3 }
    State.initial (by decide)

/-- The handler returns on every event and every stack answer, the one
exception being `RX_DONE` with a `receive` result above 255. -/
theorem lora_event_handler_returns (env : Stack) (event : lorawan_event_t) (s : State)
    (hrx : event = lorawan_event_t.RX_DONE → env.receive ≤ 255) :
    ∃ s' : State, lora_event_handler env event s = Outcome.returned s' := by
  cases event
  case RX_DONE =>
    have hloop : print_loop 257 0 env.receive = true :=
      print_loop_exits env.receive (hrx rfl) 257 0 (by decide) (by decide)
    simp only [lora_event_handler, receive_message, hloop, if_true]
    split <;> exact ⟨_, rfl⟩
  all_goals exact ⟨_, rfl⟩

/-- On `RX_DONE` with a `receive` result above 255 the handler never
returns: the 8-bit counter of the printing loop cannot reach the result. -/
theorem lora_event_handler_rx_diverges (env : Stack) (s : State) (hbig : 255 < env.receive) :
    lora_event_handler env lorawan_event_t.RX_DONE s = Outcome.diverges := by
  have hloop : print_loop 257 0 env.receive = false :=
    print_loop_stuck env.receive hbig 257 0 (by decide)
  have hneg : ¬ env.receive < 0 := by omega
  simp [lora_event_handler, receive_message, hloop, hneg]

/-- Whatever state the handler returns with, its counters follow the event
from those of the state before. -/
theorem counters_of_returned (env : Stack) (event : lorawan_event_t) (s s' : State)
    (hret : lora_event_handler env event s = Outcome.returned s') :
    counters_follow event s s' := by
  unfold counters_follow
  cases event <;>
    simp only [lora_event_handler, enable_beacon_acquisition, send_message,
      queue_next_send_message, receive_message, switch_to_class_b, print_received_beacon,
      MBED_ASSERT, string_literal_to_bool] at hret
  all_goals (try split at hret)
  all_goals (try split at hret)
  all_goals (try split at hret)
  all_goals (try cases hret)
  all_goals simp_all

/-- C18: for every prior state, every event and every stack answer,
`lora_event_handler` returns, and in the state it returns with `rx` is
unchanged or increased by one modulo 2^16, `beacon_lock` is increased by
one modulo 2^16 on `BEACON_FOUND` and `BEACON_LOCK` and unchanged on every
other event, and `beacon_miss` is increased by one modulo 2^16 on
`BEACON_NOT_FOUND` and `BEACON_MISS` and unchanged on every other event.
The one case without a state afterwards is `RX_DONE` with a `receive`
result above 255, where the handler never returns; and no returned state
departs from the counters described. -/
theorem counters_step (env : Stack) (event : lorawan_event_t) (s : State) :
    ((event = lorawan_event_t.RX_DONE → env.receive ≤ 255) →
        ∃ s' : State,
          lora_event_handler env event s = Outcome.returned s'
          ∧ (s'.app_data.rx = s.app_data.rx ∨ s'.app_data.rx = (s.app_data.rx + 1) % 65536)
          ∧ s'.app_data.beacon_lock =
              (if event = lorawan_event_t.BEACON_FOUND ∨ event = lorawan_event_t.BEACON_LOCK
               then (s.app_data.beacon_lock + 1) % 65536 else s.app_data.beacon_lock)
          ∧ s'.app_data.beacon_miss =
              (if event = lorawan_event_t.BEACON_NOT_FOUND
                  ∨ event = lorawan_event_t.BEACON_MISS
               then (s.app_data.beacon_miss + 1) % 65536 else s.app_data.beacon_miss))
    ∧ (event = lorawan_event_t.RX_DONE → 255 < env.receive →
        lora_event_handler env event s = Outcome.diverges)
    ∧ (∀ s' : State, lora_event_handler env event s = Outcome.returned s' →
        counters_follow event s s') := by
  refine ⟨fun hrx => ?_, fun he hbig => ?_, fun s' hret => ?_⟩
  · obtain ⟨s', hret⟩ := lora_event_handler_returns env event s hrx
    exact ⟨s', hret, counters_of_returned env event s s' hret⟩
  · subst he
    exact lora_event_handler_rx_diverges env s hbig
  · exact counters_of_returned env event s s' hret

/-- C18 on each of the four counting events, from counters 4, 65535 and
65535 with an accepting stack: each handler returns, the counter of the
event wraps to 0 and the others keep their values; and on `RX_DONE` with a
`receive` result of 256 the handler never returns. -/
theorem counters_step_witness :
    (lora_event_handler Stack.accepting lorawan_event_t.BEACON_FOUND State.counters_at_wrap
        = Outcome.returned
            { State.counters_at_wrap with
              beacon_found := true
              app_data := { rx := 4, beacon_lock := 0, beacon_miss := 65535 }
              calls := [StackCall.get_last_rx_beacon] }
      ∧ lora_event_handler Stack.accepting lorawan_event_t.BEACON_LOCK State.counters_at_wrap
        = Outcome.returned
            { State.counters_at_wrap with
              app_data := { rx := 4, beacon_lock := 0, beacon_miss := 65535 }
              calls := [StackCall.get_last_rx_beacon] }
      ∧ lora_event_handler Stack.accepting lorawan_event_t.BEACON_NOT_FOUND
          State.counters_at_wrap
        = Outcome.returned
            { State.counters_at_wrap with
              app_data := { rx := 4, beacon_lock := 65535, beacon_miss := 0 }
              calls := [StackCall.enable_beacon_acquisition, StackCall.add_device_time_request] }
      ∧ lora_event_handler Stack.accepting lorawan_event_t.BEACON_MISS State.counters_at_wrap
        = Outcome.returned
            { State.counters_at_wrap with
              app_data := { rx := 4, beacon_lock := 65535, beacon_miss := 0 } })
    ∧ (∃ s' : State,
        lora_event_handler Stack.accepting lorawan_event_t.BEACON_LOCK State.counters_at_wrap
          = Outcome.returned s'
        ∧ (s'.app_data.rx = State.counters_at_wrap.app_data.rx
            ∨ s'.app_data.rx = (State.counters_at_wrap.app_data.rx + 1) % 65536)
        ∧ s'.app_data.beacon_lock =
            (if lorawan_event_t.BEACON_LOCK = lorawan_event_t.BEACON_FOUND
                ∨ lorawan_event_t.BEACON_LOCK = lorawan_event_t.BEACON_LOCK
             then (State.counters_at_wrap.app_data.beacon_lock + 1) % 65536
             else State.counters_at_wrap.app_data.beacon_lock)
        ∧ s'.app_data.beacon_miss =
            (if lorawan_event_t.BEACON_LOCK = lorawan_event_t.BEACON_NOT_FOUND
                ∨ lorawan_event_t.BEACON_LOCK = lorawan_event_t.BEACON_MISS
             then (State.counters_at_wrap.app_data.beacon_miss + 1) % 65536
             else State.counters_at_wrap.app_data.beacon_miss))
    ∧ lora_event_handler { Stack.accepting with receive := 256 } lorawan_event_t.RX_DONE
        State.counters_at_wrap = Outcome.diverges :=
  ⟨⟨by decide, by decide, by decide, by decide⟩,
   (counters_step Stack.accepting lorawan_event_t.BEACON_LOCK State.counters_at_wrap).1
     (by decide),
   (counters_step { Stack.accepting with receive := 256 } lorawan_event_t.RX_DONE
     State.counters_at_wrap).2.1 rfl (by decide)⟩

/-- After `send_message`, a queued send has its timer, whatever the state
before. -/
theorem send_message_queued_has_timer (env : Stack) (s : State) :
    queued_has_timer (send_message env s) := by
  intro hq
  rw [send_message_timers, hq]
  simp

/-- After `queue_next_send_message`, a queued send has its timer if it had
one before. -/
theorem queue_next_send_message_queued_has_timer (env : Stack) (s : State)
    (hinv : queued_has_timer s) : queued_has_timer (queue_next_send_message env s) := by
  cases hs : s.send_queued
  · rw [queue_next_send_message_arms _ _ hs]
    intro _
    simp
  · rw [queue_next_send_message_queued _ _ hs]
    exact hinv

/-- Every step keeps a timer armed for a queued send. -/
theorem queued_has_timer_step (env : Stack) (a : Step) (s s' : State)
    (hinv : queued_has_timer s) (hstep : step env a s = some s') : queued_has_timer s' := by
  cases a with
  | timer i =>
    simp only [step, fire_timer] at hstep
    split at hstep
    · cases hstep
      exact send_message_queued_has_timer env _
    · cases hstep
  | event e =>
    rw [step_event_eq_some] at hstep
    have hq : lora_event_handler env e s = Outcome.returned (queue_next_send_message env s) →
        queued_has_timer s' := by
      intro h
      rw [h] at hstep
      cases hstep
      exact queue_next_send_message_queued_has_timer env s hinv
    rcases lora_event_handler_keeps_timers env e s s' hstep with
      h | h | h | h | h | h | ⟨h1, h2⟩
    · subst h
      simp only [lora_event_handler] at hstep
      cases hstep
      exact send_message_queued_has_timer env _
    · subst h; exact hq rfl
    · subst h; exact hq rfl
    · subst h; exact hq rfl
    · subst h; exact hq rfl
    · subst h; exact hq rfl
    · unfold queued_has_timer at *
      rw [h1, h2]; exact hinv

/-- A sequence of steps keeps a timer armed for a queued send. -/
theorem queued_has_timer_run (l : List (Stack × Step)) (s s' : State)
    (hinv : queued_has_timer s) (hrun : run l s = some s') : queued_has_timer s' := by
  induction l generalizing s with
  | nil => cases hrun; exact hinv
  | cons x rest ih =>
    obtain ⟨env, a⟩ := x
    simp only [run] at hrun
    cases hmid : step env a s with
    | none => rw [hmid] at hrun; cases hrun
    | some m =>
      rw [hmid] at hrun
      exact ih m (queued_has_timer_step env a s m hinv hmid) hrun

/-- C19: in every state reachable from program start by stack events and
send-timer firings, with any stack answers, `send_queued` set implies that
at least one send timer is armed. -/
theorem reachable_queued_has_timer (s : State) (hreach : Reachable s)
    (hq : s.send_queued = true) : 1 ≤ s.timers.length := by
  obtain ⟨l, hrun⟩ := hreach
  have hinit : queued_has_timer State.initial := by
    intro h
    cases h
  exact queued_has_timer_run l State.initial s hinit hrun hq

/-- C19 at the state reached by one `TX_DONE` event, which has a send
queued. -/
theorem reachable_queued_has_timer_witness :
    Reachable State.after_tx_done
    ∧ State.after_tx_done.send_queued = true
    ∧ 1 ≤ State.after_tx_done.timers.length :=
  have hreach : Reachable State.after_tx_done :=
    ⟨[(Stack.accepting, Step.event lorawan_event_t.TX_DONE)], by decide⟩
  ⟨hreach, rfl, reachable_queued_has_timer State.after_tx_done hreach rfl⟩

/-- C20: when the condition of line 196 holds and `set_device_class` answers
OK, then for every value `r` returned by the one-byte `send` of line 202
the call ends with `class_b_on` true, `send_queued` and the armed timers as
before, and the same state as for any other value of `r`. -/
theorem switch_to_class_b_ignores_send (env : Stack) (s : State) (r : Int)
    (hpre : class_b_precondition s = true)
    (hok : env.set_device_class = LORAWAN_STATUS_OK) :
    (switch_to_class_b { env with send := r } s).class_b_on = true
    ∧ (switch_to_class_b { env with send := r } s).send_queued = s.send_queued
    ∧ (switch_to_class_b { env with send := r } s).timers = s.timers
    ∧ switch_to_class_b { env with send := r } s = switch_to_class_b env s := by
  unfold class_b_precondition at hpre
  simp [switch_to_class_b, hpre, hok]

/-- C20 with beacon found, ping slots synchronised and the one-byte send
refused with -1. -/
theorem switch_to_class_b_ignores_send_witness :
    (switch_to_class_b { Stack.accepting with send := -1 } State.ready_for_class_b).class_b_on
      = true
    ∧ (switch_to_class_b { Stack.accepting with send := -1 } State.ready_for_class_b).send_queued
      = State.ready_for_class_b.send_queued
    ∧ (switch_to_class_b { Stack.accepting with send := -1 } State.ready_for_class_b).timers
      = State.ready_for_class_b.timers
    ∧ switch_to_class_b { Stack.accepting with send := -1 } State.ready_for_class_b
      = switch_to_class_b Stack.accepting State.ready_for_class_b :=
  switch_to_class_b_ignores_send Stack.accepting State.ready_for_class_b (-1) (by decide)
    (by decide)

end LoRaClassB
